import Mathlib

/-!
Shallow embedding of the posts demo application (TanStack Query + Zustand):
the remote resource client (`src/services/posts-api`), the persisted form and
pagination stores (`src/stores/form-store.ts`, `src/stores/pagination-store.ts`),
and the view coordination logic of the posts list and create-post form
(`posts-lists.tsx`, `create-post-form.tsx`).

JavaScript strings are embedded as Lean `String`, JavaScript numbers that hold
integers as `Int`.  `String.prototype.trim` is embedded as `jsTrim` below
(whitespace stripped from both ends), since it must be executable on concrete
inputs.
-/

/-- The shape of a Post object, from `export interface Post` in
`services/posts-api`: id, title, body, and userId. -/
structure Post where
  id : Int
  title : String
  body : String
  userId : Int
deriving DecidableEq, Repr

/-- The shape of a Post when creating a new one (no id; the server generates
it), from `export interface CreatePost`. -/
structure CreatePost where
  title : String
  body : String
  userId : Int
deriving DecidableEq, Repr

/-- The shape of an update payload, from `export interface UpdatePost`
(title, body, userId). -/
structure UpdatePost where
  title : String
  body : String
  userId : Int
deriving DecidableEq, Repr

/-- Embedding of `String.prototype.trim`: whitespace characters removed from
both ends of the string.  Implemented over the character list so that it is
executable and its length behaviour is provable. -/
def jsTrim (s : String) : String :=
  String.mk (((s.toList.dropWhile Char.isWhitespace).reverse.dropWhile
      Char.isWhitespace).reverse)

/-- Dropping a while-scan never lengthens a list. -/
theorem length_dropWhile_le (p : Char → Bool) (l : List Char) :
    (l.dropWhile p).length ≤ l.length := by
  induction l with
  | nil => simp
  | cons a l ih =>
    simp only [List.dropWhile]
    split
    · exact Nat.le_trans ih (Nat.le_succ _)
    · exact Nat.le_refl _

/-- The trimmed string is never longer than the original. -/
theorem jsTrim_length_le (s : String) : (jsTrim s).length ≤ s.length := by
  show (((s.toList.dropWhile Char.isWhitespace).reverse.dropWhile
      Char.isWhitespace).reverse).length ≤ s.length
  rw [List.length_reverse]
  calc ((s.toList.dropWhile Char.isWhitespace).reverse.dropWhile
          Char.isWhitespace).length
      ≤ (s.toList.dropWhile Char.isWhitespace).reverse.length :=
        length_dropWhile_le _ _
    _ = (s.toList.dropWhile Char.isWhitespace).length := List.length_reverse _
    _ ≤ s.toList.length := length_dropWhile_le _ _
    _ = s.length := rfl

/-! ## Remote resource client (`services/posts-api`)

Each client operation builds a request against the fixed JSONPlaceholder
collection and checks `response.ok` before parsing.  A `fetch` response is
embedded as a status code plus an already-decoded payload; `response.ok` is
the standard fetch predicate (status in the 200..299 range). -/

/-- A fetch response: HTTP status code and the decoded JSON payload. -/
structure Response (α : Type) where
  status : Nat
  payload : α
deriving DecidableEq, Repr

/-- The fetch API `response.ok` flag: status in the inclusive range 200..299. -/
def Response.ok {α : Type} (r : Response α) : Bool :=
  200 ≤ r.status && r.status ≤ 299

/-- The single error shape the client throws: `new Error(message)`. -/
structure ApiError where
  message : String
deriving DecidableEq, Repr

/-- The query parameters of a paginated list request
(`/posts?_start=...&_limit=...`). -/
structure ListRequest where
  start : Int
  limit : Int
deriving DecidableEq, Repr

/-- The request issued by `fetchPosts(page, limit)`:
`const start = (page - 1) * limit` and the fetch of
`/posts?_start=(start)&_limit=(limit)`. -/
def fetchPostsRequest (page : Int) (limit : Int) : ListRequest :=
  { start := (page - 1) * limit, limit := limit }

/-- Modelled from the spec: the remote collaborator is an opaque external
service (JSONPlaceholder) assumed to implement simple CRUD semantics over a
fixed-size collection; a `_start`/`_limit` list request returns the items in
collection order starting at offset `start`, at most `limit` of them. -/
def serveListRequest (coll : List Post) (req : ListRequest) : List Post :=
  (coll.drop req.start.toNat).take req.limit.toNat

/-- Response handling of `fetchPosts`: throw `Failed to fetch posts` on a
non-ok response, otherwise return the parsed list. -/
def fetchPostsRun (r : Response (List Post)) : Except ApiError (List Post) :=
  if r.ok then Except.ok r.payload
  else Except.error { message := "Failed to fetch posts" }

/-- Response handling of `fetchPost` (single item): throw
`Failed to fetch post` on a non-ok response, otherwise return the parsed
post. -/
def fetchPostRun (r : Response Post) : Except ApiError Post :=
  if r.ok then Except.ok r.payload
  else Except.error { message := "Failed to fetch post" }

/-- Response handling of `createPost`: throw `Failed to create post` on a
non-ok response, otherwise return the created post (with id from server). -/
def createPostRun (r : Response Post) : Except ApiError Post :=
  if r.ok then Except.ok r.payload
  else Except.error { message := "Failed to create post" }

/-- Response handling of `updatePost`: throw `Failed to update post` on a
non-ok response, otherwise return the updated post. -/
def updatePostRun (r : Response Post) : Except ApiError Post :=
  if r.ok then Except.ok r.payload
  else Except.error { message := "Failed to update post" }

/-- Response handling of `deletePost`: throw `Failed to delete post` on a
non-ok response, otherwise return nothing. -/
def deletePostRun (r : Response Unit) : Except ApiError Unit :=
  if r.ok then Except.ok ()
  else Except.error { message := "Failed to delete post" }

/-! ## Pagination store and page navigation (`stores/pagination-store.ts`,
`posts-lists.tsx`)

The persisted pagination slice holds `currentPage`, initially 1.  The list
view derives the page bounds from the constants `TOTAL_POSTS = 100` and
`POSTS_PER_PAGE = 5` and clamps navigation. -/

/-- `const TOTAL_POSTS = 100` in `posts-lists.tsx`. -/
def TOTAL_POSTS : Int := 100

/-- `const POSTS_PER_PAGE = 5` in `posts-lists.tsx`. -/
def POSTS_PER_PAGE : Int := 5

/-- `const TOTAL_PAGES = Math.ceil(TOTAL_POSTS / POSTS_PER_PAGE)`; ceiling
division of positive integers embedded as `(a + b - 1) / b`. -/
def TOTAL_PAGES : Int := (TOTAL_POSTS + POSTS_PER_PAGE - 1) / POSTS_PER_PAGE

/-- Initial pagination state: `currentPage: 1`. -/
def initialPage : Int := 1

/-- `goToPreviousPage`: only go back if we are not on the first page; then
`setCurrentPage(page - 1)`. -/
def goToPreviousPage (page : Int) : Int :=
  if page > 1 then page - 1 else page

/-- `goToNextPage`: only go forward if we are not on the last page; then
`setCurrentPage(page + 1)`. -/
def goToNextPage (page : Int) : Int :=
  if page < TOTAL_PAGES then page + 1 else page

/-- A page-navigation intent: the Previous or the Next button. -/
inductive PageIntent where
  | previous
  | next
deriving DecidableEq, Repr

/-- Apply one navigation intent to the current page. -/
def applyIntent (page : Int) : PageIntent → Int
  | PageIntent.previous => goToPreviousPage page
  | PageIntent.next => goToNextPage page

/-- Run a sequence of navigation intents from a starting page. -/
def runIntents (page : Int) (l : List PageIntent) : Int :=
  l.foldl applyIntent page

/-! ## Persisted form store (`stores/form-store.ts`) -/

/-- The draft form slice: `interface FormData` with title, body, userId. -/
structure FormData where
  title : String
  body : String
  userId : Int
deriving DecidableEq, Repr

/-- The default draft: `title: (empty), body: (empty), userId: 1`. -/
def defaultFormData : FormData :=
  { title := "", body := "", userId := 1 }

/-- `setTitle`: spread the previous formData and replace `title`. -/
def setTitle (s : FormData) (title : String) : FormData :=
  { s with title := title }

/-- `setBody`: spread the previous formData and replace `body`. -/
def setBody (s : FormData) (body : String) : FormData :=
  { s with body := body }

/-- `setUserId`: spread the previous formData and replace `userId`. -/
def setUserId (s : FormData) (userId : Int) : FormData :=
  { s with userId := userId }

/-- `setFormData`: full replacement of the draft slice. -/
def setFormData (_ : FormData) (data : FormData) : FormData :=
  data

/-- `clearForm`: reset the draft slice to its defaults. -/
def clearForm (_ : FormData) : FormData :=
  defaultFormData

/-! ## Create-form validation (`create-post-form.tsx`)

The `register` rules of react-hook-form, checked in declaration order;
`handleSubmit` calls the submit callback only when no field has an error.
The userId field is registered with `valueAsNumber`; its value is embedded
as an `Int` (the whole-number check of the source always passes on the
embedded integers). -/

/-- Validation of the title field: required, `minLength: 3`, and the custom
check that the trimmed length is at least 3. -/
def validateTitle (title : String) : Option String :=
  if title = "" then some "Title is required"
  else if title.length < 3 then some "Title must be at least 3 characters"
  else if (jsTrim title).length < 3 then
    some "Title must be at least 3 characters (excluding spaces)"
  else none

/-- Validation of the body field: required, `minLength: 10`, and the custom
check that the trimmed length is at least 10. -/
def validateBody (body : String) : Option String :=
  if body = "" then some "Body is required"
  else if body.length < 10 then some "Body must be at least 10 characters"
  else if (jsTrim body).length < 10 then
    some "Body must be at least 10 characters (excluding spaces)"
  else none

/-- Validation of the userId field: `min: 1`, `max: 10` (JSONPlaceholder has
10 users). -/
def validateUserId (userId : Int) : Option String :=
  if userId < 1 then some "User ID must be at least 1"
  else if userId > 10 then some "User ID must be at most 10"
  else none

/-- The field errors of a draft, in field order. -/
def draftFieldErrors (d : FormData) : List String :=
  (validateTitle d.title).toList ++ (validateBody d.body).toList ++
    (validateUserId d.userId).toList

/-- `handleSubmit(onSubmit)` of react-hook-form: when every field validates,
the submit callback receives the draft (which calls `mutation.mutate(data)`,
issuing the create request); when any field has an error, no request is
issued and the errors are rendered inline. -/
def handleSubmitCreate (d : FormData) : Option FormData :=
  if draftFieldErrors d = [] then some d else none

/-! ## Query cache and mutation coordination

A TanStack Query cache key is a list of key parts (`["posts"]`,
`["posts", page]`).  `invalidateQueries` with a filter key marks stale every
cache entry whose key extends the filter key.  Here the cache is embedded as
the stale flag per key, which is what the claims are about. -/

/-- One part of a query key: a string or a number. -/
inductive KeyPart where
  | str (s : String)
  | num (n : Int)
deriving DecidableEq, Repr

/-- A query key: a list of parts, for example `["posts", page]`. -/
abbrev QueryKey := List KeyPart

/-- The key of the list query for one page: `queryKey: ["posts", page]`. -/
def postsPageKey (page : Int) : QueryKey :=
  [KeyPart.str "posts", KeyPart.num page]

/-- Key filter matching of `invalidateQueries`: the filter key must be an
initial segment of the entry key. -/
def matchesKey : QueryKey → QueryKey → Bool
  | [], _ => true
  | _ :: _, [] => false
  | f :: fs, k :: ks => f = k && matchesKey fs ks

/-- The cache, reduced to its staleness per key: `true` means the entry is
marked stale and the next read refetches. -/
def Cache := QueryKey → Bool

/-- `queryClient.invalidateQueries(filter)`: every entry whose key matches
the filter is marked stale; other entries are untouched. -/
def invalidateQueries (filter : QueryKey) (c : Cache) : Cache :=
  fun k => if matchesKey filter k then true else c k

/-- The client state the mutation callbacks touch: the cache, the persisted
draft and page slices, the transient edit state and delete-id field of the
views, and the toast notifications shown so far. -/
structure AppState where
  cache : Cache
  form : FormData
  currentPage : Int
  editingPostId : Option Int
  editFormData : UpdatePost
  deletePostId : String
  notifications : List String

/-- Append a toast notification to the state. -/
def pushToast (msg : String) (s : AppState) : AppState :=
  { s with notifications := s.notifications ++ [msg] }

/-- `onSuccess` of the create mutation (`create-post-form.tsx`):
invalidate the `["posts"]` query kind, reset the form and clear the persisted
draft slice to its defaults, and show the success toast. -/
def createOnSuccess (s : AppState) : AppState :=
  { s with
    cache := invalidateQueries [KeyPart.str "posts"] s.cache
    form := defaultFormData
    notifications := s.notifications ++ ["Post created successfully!"] }

/-- `onError` of the create mutation: only the error toast. -/
def createOnError (msg : String) (s : AppState) : AppState :=
  pushToast ("Error: " ++ msg) s

/-- `onSuccess` of the update mutation (`posts-lists.tsx`): invalidate the
`["posts"]` query kind, leave edit mode, reset the transient edit fields, and
show the success toast. -/
def updateOnSuccess (s : AppState) : AppState :=
  { s with
    cache := invalidateQueries [KeyPart.str "posts"] s.cache
    editingPostId := none
    editFormData := { title := "", body := "", userId := 1 }
    notifications := s.notifications ++ ["Post updated successfully!"] }

/-- `onError` of the update mutation: only the error toast. -/
def updateOnError (msg : String) (s : AppState) : AppState :=
  pushToast ("Error: " ++ msg) s

/-- `onSuccess` of the delete mutation in `posts-lists.tsx`: invalidate the
`["posts"]` query kind and show the success toast. -/
def deleteOnSuccess (s : AppState) : AppState :=
  { s with
    cache := invalidateQueries [KeyPart.str "posts"] s.cache
    notifications := s.notifications ++ ["Post deleted successfully!"] }

/-- `onError` of the delete mutation: only the error toast. -/
def deleteOnError (msg : String) (s : AppState) : AppState :=
  pushToast ("Error: " ++ msg) s

/-- `onSuccess` of the delete mutation in `create-post-form.tsx`: invalidate
the `["posts"]` query kind, clear the delete input field, and show the
success toast. -/
def formDeleteOnSuccess (s : AppState) : AppState :=
  { s with
    cache := invalidateQueries [KeyPart.str "posts"] s.cache
    deletePostId := ""
    notifications := s.notifications ++ ["Post deleted successfully!"] }

/-- Run the create mutation on the response of `createPost`: dispatch to
`onSuccess` or `onError` with the thrown message. -/
def runCreateMutation (r : Response Post) (s : AppState) : AppState :=
  match createPostRun r with
  | Except.ok _ => createOnSuccess s
  | Except.error e => createOnError e.message s

/-- Run the update mutation on the response of `updatePost`. -/
def runUpdateMutation (r : Response Post) (s : AppState) : AppState :=
  match updatePostRun r with
  | Except.ok _ => updateOnSuccess s
  | Except.error e => updateOnError e.message s

/-- Run the delete mutation of the list view on the response of
`deletePost`. -/
def runDeleteMutation (r : Response Unit) (s : AppState) : AppState :=
  match deletePostRun r with
  | Except.ok _ => deleteOnSuccess s
  | Except.error e => deleteOnError e.message s

/-- `handleSaveEdit(postId)` in `posts-lists.tsx`: if the trimmed title or
the trimmed body is empty, toast `Title and body are required` and return
without saving; otherwise trigger the PUT request with the edit fields. -/
def handleSaveEdit (postId : Int) (d : UpdatePost) : Option (Int × UpdatePost) :=
  if jsTrim d.title = "" || jsTrim d.body = "" then none
  else some (postId, d)

/-! ## Sample values used by the witness theorems -/

/-- A concrete post used in concrete instantiations. -/
def samplePost : Post :=
  { id := 1, title := "alpha", body := "beta", userId := 1 }

/-- A concrete client state used in concrete instantiations: empty fresh
cache, default slices, no notifications. -/
def sampleState : AppState :=
  { cache := fun _ => false
    form := defaultFormData
    currentPage := 1
    editingPostId := none
    editFormData := { title := "", body := "", userId := 1 }
    deletePostId := ""
    notifications := [] }

/-! ## The claims -/

/-- Claim C1: for every page number `p ≥ 1` and page size `limit`,
`fetchPosts(p, limit)` requests the items starting at offset
`(p - 1) * limit` with `limit` items: the served slice has length at most
`limit` and its i-th element is the collection element at index
`(p - 1) * limit + i`; in particular `p = 1` yields offset 0 and `p = 20`
with `limit = 5` yields offset 95. -/
theorem C1_fetchPosts_offset (p limit : Int) (hp : 1 ≤ p) :
    (fetchPostsRequest p limit).start = (p - 1) * limit ∧
    (∀ coll : List Post,
      (serveListRequest coll (fetchPostsRequest p limit)).length ≤ limit.toNat) ∧
    (∀ (coll : List Post) (i : Nat), i < limit.toNat →
      (serveListRequest coll (fetchPostsRequest p limit))[i]? =
        coll[((p - 1) * limit).toNat + i]?) ∧
    (fetchPostsRequest 1 limit).start = 0 ∧
    (fetchPostsRequest 20 5).start = 95 := by
  refine ⟨rfl, ?_, ?_, by simp [fetchPostsRequest], by decide⟩
  · intro coll
    simp only [serveListRequest, fetchPostsRequest]
    rw [List.length_take]
    exact Nat.min_le_left _ _
  · intro coll i hi
    simp only [serveListRequest, fetchPostsRequest]
    rw [List.getElem?_take, if_pos hi, List.getElem?_drop]

/-- Concrete instance of C1: page 20 with limit 5 requests offset 95, and
page 1 requests offset 0. -/
theorem C1_witness :
    (fetchPostsRequest 20 5).start = 95 ∧
    (fetchPostsRequest 1 5).start = 0 :=
  ⟨(C1_fetchPosts_offset 20 5 (by decide)).2.2.2.2,
   (C1_fetchPosts_offset 1 5 (by decide)).2.2.2.1⟩

/-- Claim C7: every remote client operation (fetchPosts, fetchPost,
createPost, updatePost, deletePost) fails with an error if and only if the
server signals a non-success status; on a success status it returns the
parsed response (or nothing, for delete) without error. -/
theorem C7_client_error_iff_non_success :
    (∀ r : Response (List Post),
      (r.ok = true → fetchPostsRun r = Except.ok r.payload) ∧
      (r.ok = false →
        fetchPostsRun r = Except.error { message := "Failed to fetch posts" })) ∧
    (∀ r : Response Post,
      (r.ok = true → fetchPostRun r = Except.ok r.payload) ∧
      (r.ok = false →
        fetchPostRun r = Except.error { message := "Failed to fetch post" })) ∧
    (∀ r : Response Post,
      (r.ok = true → createPostRun r = Except.ok r.payload) ∧
      (r.ok = false →
        createPostRun r = Except.error { message := "Failed to create post" })) ∧
    (∀ r : Response Post,
      (r.ok = true → updatePostRun r = Except.ok r.payload) ∧
      (r.ok = false →
        updatePostRun r = Except.error { message := "Failed to update post" })) ∧
    (∀ r : Response Unit,
      (r.ok = true → deletePostRun r = Except.ok ()) ∧
      (r.ok = false →
        deletePostRun r = Except.error { message := "Failed to delete post" })) := by
  refine ⟨fun r => ⟨fun h => ?_, fun h => ?_⟩, fun r => ⟨fun h => ?_, fun h => ?_⟩,
    fun r => ⟨fun h => ?_, fun h => ?_⟩, fun r => ⟨fun h => ?_, fun h => ?_⟩,
    fun r => ⟨fun h => ?_, fun h => ?_⟩⟩ <;>
    simp [fetchPostsRun, fetchPostRun, createPostRun, updatePostRun,
      deletePostRun, h]

/-- Concrete instance of C7: a 200 list fetch succeeds with its payload, a
500 delete fails with the delete error. -/
theorem C7_witness :
    fetchPostsRun { status := 200, payload := [samplePost] } =
      Except.ok [samplePost] ∧
    deletePostRun { status := 500, payload := () } =
      Except.error { message := "Failed to delete post" } :=
  ⟨(C7_client_error_iff_non_success.1
      { status := 200, payload := [samplePost] }).1 (by decide),
   (C7_client_error_iff_non_success.2.2.2.2
      { status := 500, payload := () }).2 (by decide)⟩

/-- Claim C8 fails on the code: `fetchPost` throws the same generic error
(`Failed to fetch post`) for a 404 (unknown identifier) as for any other
non-success status, so there is no NotFoundError distinguishable from the
error of other non-success statuses.  At the concrete inputs status 404 and
status 500 the two results are the very same error value. -/
theorem C8_counterexample :
    fetchPostRun { status := 404, payload := samplePost } =
      fetchPostRun { status := 500, payload := samplePost } ∧
    fetchPostRun { status := 404, payload := samplePost } =
      Except.error { message := "Failed to fetch post" } := by
  constructor <;> rfl

/-- Claim C8 amended: for a single-item fetch, every non-success status
(a 404 for an unknown identifier included) fails with the one generic error
`Failed to fetch post`; the client does not distinguish not-found from other
transport failures. -/
theorem C8_amended_single_generic_error (r : Response Post)
    (h : r.ok = false) :
    fetchPostRun r = Except.error { message := "Failed to fetch post" } := by
  simp [fetchPostRun, h]

/-- Concrete instance of the amended C8: a 404 single-item fetch fails with
the generic fetch-post error. -/
theorem C8_amended_witness :
    fetchPostRun { status := 404, payload := samplePost } =
      Except.error { message := "Failed to fetch post" } :=
  C8_amended_single_generic_error { status := 404, payload := samplePost }
    (by decide)

/-- Claim C9: each partial setter of the draft slice (setTitle, setBody,
setUserId) sets its own field to the given value and leaves the other two
fields of the draft unchanged, for every draft state and input value. -/
theorem C9_setters_frame (s : FormData) (t b : String) (u : Int) :
    (setTitle s t).title = t ∧ (setTitle s t).body = s.body ∧
    (setTitle s t).userId = s.userId ∧
    (setBody s b).body = b ∧ (setBody s b).title = s.title ∧
    (setBody s b).userId = s.userId ∧
    (setUserId s u).userId = u ∧ (setUserId s u).title = s.title ∧
    (setUserId s u).body = s.body :=
  ⟨rfl, rfl, rfl, rfl, rfl, rfl, rfl, rfl, rfl⟩

/-- Claim C10: `handleSaveEdit` issues the remote update request exactly when
the trimmed title and the trimmed body are both non-empty — with no
minimum-length check and no userId range check — and blocks (no remote call)
exactly when the trimmed title or the trimmed body is empty. -/
theorem C10_handleSaveEdit_weak_validation (postId : Int) (d : UpdatePost) :
    (handleSaveEdit postId d = some (postId, d) ↔
      jsTrim d.title ≠ "" ∧ jsTrim d.body ≠ "") ∧
    (handleSaveEdit postId d = none ↔
      jsTrim d.title = "" ∨ jsTrim d.body = "") := by
  by_cases ht : jsTrim d.title = "" <;> by_cases hb : jsTrim d.body = "" <;>
    simp [handleSaveEdit, ht, hb]

/-- Concrete instance of C10: a one-character title with a userId far outside
[1, 10] still issues the update request, and a whitespace-only title blocks
it. -/
theorem C10_witness :
    handleSaveEdit 7 { title := "a", body := "b", userId := 999 } =
      some (7, { title := "a", body := "b", userId := 999 }) ∧
    handleSaveEdit 7 { title := "   ", body := "b", userId := 2 } = none :=
  ⟨(C10_handleSaveEdit_weak_validation 7
      { title := "a", body := "b", userId := 999 }).1.mpr (by decide),
   (C10_handleSaveEdit_weak_validation 7
      { title := "   ", body := "b", userId := 2 }).2.mpr (by decide)⟩

/-- The computed page count is 20. -/
theorem TOTAL_PAGES_eq : TOTAL_PAGES = 20 := by decide

/-- One navigation intent preserves the page bounds. -/
theorem applyIntent_bounds (p : Int) (h1 : 1 ≤ p) (h2 : p ≤ TOTAL_PAGES)
    (i : PageIntent) :
    1 ≤ applyIntent p i ∧ applyIntent p i ≤ TOTAL_PAGES := by
  rw [TOTAL_PAGES_eq] at h2 ⊢
  cases i <;>
    simp only [applyIntent, goToPreviousPage, goToNextPage, TOTAL_PAGES_eq] <;>
    split <;> omega

/-- A sequence of navigation intents preserves the page bounds. -/
theorem runIntents_bounds (l : List PageIntent) (p : Int) (h1 : 1 ≤ p)
    (h2 : p ≤ TOTAL_PAGES) :
    1 ≤ runIntents p l ∧ runIntents p l ≤ TOTAL_PAGES := by
  induction l generalizing p with
  | nil => exact ⟨h1, h2⟩
  | cons i l ih =>
    have h := applyIntent_bounds p h1 h2 i
    simpa [runIntents, List.foldl_cons] using ih (applyIntent p i) h.1 h.2

/-- Claim C2: starting from the initial pagination state (currentPage 1),
every sequence of Previous/Next intents keeps the page in [1, 20] where
20 = ceil(100 / 5); Previous at page 1 and Next at page 20 are no-ops, and
otherwise the intents decrement or increment the page by exactly 1. -/
theorem C2_pagination_clamped :
    TOTAL_PAGES = 20 ∧
    (∀ l : List PageIntent,
      1 ≤ runIntents initialPage l ∧ runIntents initialPage l ≤ 20) ∧
    goToPreviousPage 1 = 1 ∧
    goToNextPage 20 = 20 ∧
    (∀ p : Int, 1 < p → goToPreviousPage p = p - 1) ∧
    (∀ p : Int, p < 20 → goToNextPage p = p + 1) := by
  refine ⟨TOTAL_PAGES_eq, ?_, by decide, by decide, ?_, ?_⟩
  · intro l
    have h := runIntents_bounds l initialPage (by decide) (by decide)
    rw [TOTAL_PAGES_eq] at h
    exact h
  · intro p hp
    simp [goToPreviousPage, hp]
  · intro p hp
    rw [goToNextPage, if_pos (by rw [TOTAL_PAGES_eq]; exact hp)]

/-- Concrete instance of C2: after Next, Next, Previous from page 1 the page
is in bounds, and a Previous at page 3 lands on page 2. -/
theorem C2_witness :
    (1 ≤ runIntents initialPage
        [PageIntent.next, PageIntent.next, PageIntent.previous] ∧
      runIntents initialPage
        [PageIntent.next, PageIntent.next, PageIntent.previous] ≤ 20) ∧
    goToPreviousPage 3 = 2 :=
  ⟨C2_pagination_clamped.2.1 _,
   C2_pagination_clamped.2.2.2.2.1 3 (by decide)⟩

/-- A title whose trimmed length is at least 3 passes all three title
rules. -/
theorem validateTitle_eq_none (t : String) (ht : 3 ≤ (jsTrim t).length) :
    validateTitle t = none := by
  have hlen : 3 ≤ t.length := le_trans ht (jsTrim_length_le t)
  have hne : t ≠ "" := by
    intro h
    rw [h] at hlen
    exact absurd hlen (by decide)
  unfold validateTitle
  rw [if_neg hne, if_neg (by omega), if_neg (by omega)]

/-- A body whose trimmed length is at least 10 passes all three body
rules. -/
theorem validateBody_eq_none (b : String) (hb : 10 ≤ (jsTrim b).length) :
    validateBody b = none := by
  have hlen : 10 ≤ b.length := le_trans hb (jsTrim_length_le b)
  have hne : b ≠ "" := by
    intro h
    rw [h] at hlen
    exact absurd hlen (by decide)
  unfold validateBody
  rw [if_neg hne, if_neg (by omega), if_neg (by omega)]

/-- A userId in [1, 10] passes the range rules. -/
theorem validateUserId_eq_none (u : Int) (h1 : 1 ≤ u) (h2 : u ≤ 10) :
    validateUserId u = none := by
  unfold validateUserId
  rw [if_neg (by omega), if_neg (by omega)]

/-- Invalidating the `["posts"]` kind marks every list-page key stale. -/
theorem invalidateQueries_posts_page (c : Cache) (page : Int) :
    invalidateQueries [KeyPart.str "posts"] c (postsPageKey page) = true := by
  simp [invalidateQueries, postsPageKey, matchesKey]

/-- Claim C3: for every valid draft (trimmed title length at least 3,
trimmed body length at least 10, userId in [1, 10]), the submit handler
issues the create request, and when the request succeeds the posts list
query kind is invalidated (every list-page key is stale) and the draft slice
is reset to its defaults (empty title, empty body, userId 1). -/
theorem C3_valid_draft_create (d : FormData)
    (ht : 3 ≤ (jsTrim d.title).length) (hb : 10 ≤ (jsTrim d.body).length)
    (hu1 : 1 ≤ d.userId) (hu2 : d.userId ≤ 10)
    (r : Response Post) (hr : r.ok = true) (s : AppState) :
    handleSubmitCreate d = some d ∧
    (runCreateMutation r s).form = defaultFormData ∧
    (runCreateMutation r s).form = { title := "", body := "", userId := 1 } ∧
    (∀ page : Int, (runCreateMutation r s).cache (postsPageKey page) = true) := by
  have hrun : runCreateMutation r s = createOnSuccess s := by
    simp [runCreateMutation, createPostRun, hr]
  refine ⟨?_, ?_, ?_, fun page => ?_⟩
  · simp [handleSubmitCreate, draftFieldErrors, validateTitle_eq_none _ ht,
      validateBody_eq_none _ hb, validateUserId_eq_none _ hu1 hu2]
  · rw [hrun]; rfl
  · rw [hrun]; rfl
  · rw [hrun]
    exact invalidateQueries_posts_page s.cache page

/-- Concrete instance of C3: a valid draft is submitted and a 201 create
response resets the draft slice and marks the page-1 list entry stale. -/
theorem C3_witness :
    handleSubmitCreate { title := "Hello", body := "Hello world, hi!", userId := 3 } =
      some { title := "Hello", body := "Hello world, hi!", userId := 3 } ∧
    (runCreateMutation { status := 201, payload := samplePost } sampleState).form =
      { title := "", body := "", userId := 1 } ∧
    (runCreateMutation { status := 201, payload := samplePost } sampleState).cache
      (postsPageKey 1) = true :=
  ⟨(C3_valid_draft_create
      { title := "Hello", body := "Hello world, hi!", userId := 3 }
      (by decide) (by decide) (by decide) (by decide)
      { status := 201, payload := samplePost } (by decide) sampleState).1,
   (C3_valid_draft_create
      { title := "Hello", body := "Hello world, hi!", userId := 3 }
      (by decide) (by decide) (by decide) (by decide)
      { status := 201, payload := samplePost } (by decide) sampleState).2.2.1,
   (C3_valid_draft_create
      { title := "Hello", body := "Hello world, hi!", userId := 3 }
      (by decide) (by decide) (by decide) (by decide)
      { status := 201, payload := samplePost } (by decide) sampleState).2.2.2 1⟩

/-- Claim C4: a successful delete invalidates every list-page cache entry —
every key of the posts query kind, for all pages — not only the entry of the
currently displayed page.  This holds for the delete mutation of the list
view and for the delete-by-id mutation of the form view. -/
theorem C4_delete_invalidates_all_pages (r : Response Unit) (hr : r.ok = true)
    (s : AppState) :
    (∀ page : Int, (runDeleteMutation r s).cache (postsPageKey page) = true) ∧
    (∀ k : QueryKey, matchesKey [KeyPart.str "posts"] k = true →
      (runDeleteMutation r s).cache k = true) ∧
    (∀ page : Int, (formDeleteOnSuccess s).cache (postsPageKey page) = true) := by
  have hrun : runDeleteMutation r s = deleteOnSuccess s := by
    simp [runDeleteMutation, deletePostRun, hr]
  refine ⟨fun page => ?_, fun k hk => ?_, fun page => ?_⟩
  · rw [hrun]
    exact invalidateQueries_posts_page s.cache page
  · rw [hrun]
    show invalidateQueries [KeyPart.str "posts"] s.cache k = true
    simp [invalidateQueries, hk]
  · exact invalidateQueries_posts_page s.cache page

/-- Concrete instance of C4: a 200 delete response marks the entries of
page 1 and of page 7 stale, not only the current page. -/
theorem C4_witness :
    (runDeleteMutation { status := 200, payload := () } sampleState).cache
      (postsPageKey 1) = true ∧
    (runDeleteMutation { status := 200, payload := () } sampleState).cache
      (postsPageKey 7) = true :=
  ⟨(C4_delete_invalidates_all_pages { status := 200, payload := () }
      (by decide) sampleState).1 1,
   (C4_delete_invalidates_all_pages { status := 200, payload := () }
      (by decide) sampleState).1 7⟩

/-- Claim C5: for every invalid draft (trimmed title length below 3, or
trimmed body length below 10, or userId outside [1, 10]), submitting the
create form is blocked by client-side validation: the submit handler issues
no create request. -/
theorem C5_invalid_draft_blocked (d : FormData)
    (h : (jsTrim d.title).length < 3 ∨ (jsTrim d.body).length < 10 ∨
      d.userId < 1 ∨ 10 < d.userId) :
    handleSubmitCreate d = none := by
  rcases h with h | h | h | h
  · have hv : (validateTitle d.title).isSome = true := by
      unfold validateTitle
      by_cases h1 : d.title = ""
      · rw [if_pos h1]; rfl
      · rw [if_neg h1]
        by_cases h2 : d.title.length < 3
        · rw [if_pos h2]; rfl
        · rw [if_neg h2, if_pos h]; rfl
    obtain ⟨m, hm⟩ := Option.isSome_iff_exists.mp hv
    simp [handleSubmitCreate, draftFieldErrors, hm]
  · have hv : (validateBody d.body).isSome = true := by
      unfold validateBody
      by_cases h1 : d.body = ""
      · rw [if_pos h1]; rfl
      · rw [if_neg h1]
        by_cases h2 : d.body.length < 10
        · rw [if_pos h2]; rfl
        · rw [if_neg h2, if_pos h]; rfl
    obtain ⟨m, hm⟩ := Option.isSome_iff_exists.mp hv
    simp [handleSubmitCreate, draftFieldErrors, hm]
  · have hv : (validateUserId d.userId).isSome = true := by
      unfold validateUserId
      rw [if_pos h]; rfl
    obtain ⟨m, hm⟩ := Option.isSome_iff_exists.mp hv
    simp [handleSubmitCreate, draftFieldErrors, hm]
  · have hv : (validateUserId d.userId).isSome = true := by
      unfold validateUserId
      by_cases h1 : d.userId < 1
      · rw [if_pos h1]; rfl
      · rw [if_neg h1, if_pos h]; rfl
    obtain ⟨m, hm⟩ := Option.isSome_iff_exists.mp hv
    simp [handleSubmitCreate, draftFieldErrors, hm]

/-- Concrete instance of C5: a draft with a 2-character title is blocked,
and a valid-text draft with userId 11 is blocked. -/
theorem C5_witness :
    handleSubmitCreate { title := "ab", body := "0123456789x", userId := 5 } =
      none ∧
    handleSubmitCreate
      { title := "Hello", body := "Hello world, hi!", userId := 11 } = none :=
  ⟨C5_invalid_draft_blocked _ (Or.inl (by decide)),
   C5_invalid_draft_blocked _ (Or.inr (Or.inr (Or.inr (by decide))))⟩

/-- Claim C6: for every mutation (create, update, delete) whose remote
request fails (non-success status), no cache entry is invalidated and the
persisted draft slice and pagination slice are left unchanged: the only
effect of a failed mutation is appending one visible error notification. -/
theorem C6_failed_mutation_only_toast (s : AppState)
    (rc ru : Response Post) (rd : Response Unit)
    (hc : rc.ok = false) (hu : ru.ok = false) (hd : rd.ok = false) :
    runCreateMutation rc s = pushToast "Error: Failed to create post" s ∧
    runUpdateMutation ru s = pushToast "Error: Failed to update post" s ∧
    runDeleteMutation rd s = pushToast "Error: Failed to delete post" s ∧
    (∀ msg : String,
      (pushToast msg s).cache = s.cache ∧
      (pushToast msg s).form = s.form ∧
      (pushToast msg s).currentPage = s.currentPage ∧
      (pushToast msg s).notifications = s.notifications ++ [msg]) := by
  refine ⟨?_, ?_, ?_, fun msg => ⟨rfl, rfl, rfl, rfl⟩⟩
  · simp [runCreateMutation, createPostRun, hc, createOnError]
  · simp [runUpdateMutation, updatePostRun, hu, updateOnError]
  · simp [runDeleteMutation, deletePostRun, hd, deleteOnError]

/-- Concrete instance of C6: a 500 create response leaves cache, draft
slice and page unchanged and only appends the error toast. -/
theorem C6_witness :
    runCreateMutation { status := 500, payload := samplePost } sampleState =
      pushToast "Error: Failed to create post" sampleState ∧
    (pushToast "Error: Failed to create post" sampleState).form =
      sampleState.form :=
  ⟨(C6_failed_mutation_only_toast sampleState
      { status := 500, payload := samplePost }
      { status := 500, payload := samplePost }
      { status := 500, payload := () }
      (by decide) (by decide) (by decide)).1,
   ((C6_failed_mutation_only_toast sampleState
      { status := 500, payload := samplePost }
      { status := 500, payload := samplePost }
      { status := 500, payload := () }
      (by decide) (by decide) (by decide)).2.2.2
      "Error: Failed to create post").2.1⟩
